import Mathlib

/-!
Verification of the midastouch account module (`midastouch/accounts.py`).

Monetary amounts and balances are embedded as rationals (`ℚ`), dates as
natural-number timestamps (`ℕ`), the per-account SQLite table as a Lean list
of records in insertion order, and Python code that can raise as functions
into `Except String _`.  Python's `round(x, 2)` is embedded as half-to-even
rounding of a rational to two decimal places.
-/

namespace Midastouch

/-- Half-to-even ("banker's") rounding of a rational to the nearest integer,
as Python's built-in `round` behaves on exact decimal values. -/
def roundHalfEven (q : ℚ) : ℤ :=
  if q - ⌊q⌋ < 1/2 then ⌊q⌋
  else if 1/2 < q - ⌊q⌋ then ⌊q⌋ + 1
  else if ⌊q⌋ % 2 = 0 then ⌊q⌋ else ⌊q⌋ + 1

/-- Python's `round(x, 2)`: round to two decimal places. -/
def round2 (q : ℚ) : ℚ := (roundHalfEven (q * 100) : ℚ) / 100

/-- A row of the `debit_transactions` table (class `DebitTransaction`).
The `id` column is not stored: it is always `generate_hash_id` of the
remaining fields, and is recomputed where the source recomputes it. -/
structure DebitTransaction where
  description : String
  date : ℕ
  deposit : Option ℚ
  withdrawal : Option ℚ
  balance : ℚ
  deriving DecidableEq, Repr

/-- A row of the `credit_transactions` table (class `CreditTransaction`). -/
structure CreditTransaction where
  description : String
  date : ℕ
  charge : Option ℚ
  payment : Option ℚ
  balance : ℚ
  deriving DecidableEq, Repr

/-- `str(x)` for an optional amount as it appears in the hash preimage:
Python formats `None` as the string `"None"`. -/
def optStr : Option ℚ → String
  | none => "None"
  | some q => toString q

/-- `generate_hash_id` builds the string
`f"{description}:{date_str}:{deposit}:{withdrawal}:{balance}"` and returns its
SHA-256 digest.  The digest of the preimage is embedded as the preimage string
itself; the development only relies on the id being a deterministic function
of the record's fields, which this preserves. -/
def generate_hash_id (description : String) (date : ℕ) (deposit withdrawal : Option ℚ)
    (balance : ℚ) : String :=
  description ++ ":" ++ toString date ++ ":" ++ optStr deposit ++ ":" ++
    optStr withdrawal ++ ":" ++ toString balance

/-- The id `DebitAccount._add_transaction` computes for a record. -/
def DebitTransaction.hashId (r : DebitTransaction) : String :=
  generate_hash_id r.description r.date r.deposit r.withdrawal r.balance

/-- `DebitAccount._add_transaction`: compute the content-hash id; if a stored
record already has that id, do nothing; otherwise append the record. -/
def DebitAccount.add_transaction (store : List DebitTransaction)
    (r : DebitTransaction) : List DebitTransaction :=
  if store.any (fun t => t.hashId == r.hashId) then store
  else store ++ [r]

/-- SQL `coalesce(sum(deposit), 0)` over a record list: null deposits are
skipped by `SUM`, so each contributes 0. -/
def debitDepositTotal (rs : List DebitTransaction) : ℚ :=
  (rs.map (fun r => r.deposit.getD 0)).sum

/-- SQL `coalesce(sum(withdrawal), 0)` over a record list. -/
def debitWithdrawalTotal (rs : List DebitTransaction) : ℚ :=
  (rs.map (fun r => r.withdrawal.getD 0)).sum

/-- SQL `coalesce(sum(charge), 0)` over a record list. -/
def creditChargeTotal (rs : List CreditTransaction) : ℚ :=
  (rs.map (fun r => r.charge.getD 0)).sum

/-- SQL `coalesce(sum(payment), 0)` over a record list. -/
def creditPaymentTotal (rs : List CreditTransaction) : ℚ :=
  (rs.map (fun r => r.payment.getD 0)).sum

/-- `TransactionQuery.sum` (ungrouped), debit branch: the query binds
`deposit, withdrawal` to the two coalesced totals and returns
`round((deposit or 0) - (withdrawal or 0), 2)`. -/
def TransactionQuery.sumDebit (rs : List DebitTransaction) : ℚ :=
  round2 (debitDepositTotal rs - debitWithdrawalTotal rs)

/-- `TransactionQuery.sum` (ungrouped), credit branch: the query binds
`withdrawal, deposit = (charge_total, payment_total)`, so the returned value
is `round(payment_total - charge_total, 2)`. -/
def TransactionQuery.sumCredit (rs : List CreditTransaction) : ℚ :=
  round2 (creditPaymentTotal rs - creditChargeTotal rs)

/-- `TransactionQuery.sum2` (ungrouped), debit branch: identical to the
debit branch of `sum`. -/
def TransactionQuery.sum2Debit (rs : List DebitTransaction) : ℚ :=
  round2 (debitDepositTotal rs - debitWithdrawalTotal rs)

/-- `TransactionQuery.sum2` (ungrouped), credit branch: binds
`deposit, withdrawal = (charge_total, payment_total)`, so the returned value
is `round(charge_total - payment_total, 2)`. -/
def TransactionQuery.sum2Credit (rs : List CreditTransaction) : ℚ :=
  round2 (creditChargeTotal rs - creditPaymentTotal rs)

/-- The per-record signed amount the spec describes for a debit record:
deposit minus withdrawal, null treated as 0. -/
def debitSignedAmount (r : DebitTransaction) : ℚ :=
  r.deposit.getD 0 - r.withdrawal.getD 0

/-- The per-record signed amount the spec describes for a credit record,
in the account's own sign convention (a charge increases the balance owed):
charge minus payment, null treated as 0. -/
def creditSignedAmount (r : CreditTransaction) : ℚ :=
  r.charge.getD 0 - r.payment.getD 0

/-- The value the spec claims for an ungrouped credit `sum()`:
primary amounts (charges) minus secondary amounts (payments), rounded. -/
def claimedSumCredit (rs : List CreditTransaction) : ℚ :=
  round2 ((rs.map creditSignedAmount).sum)

/-- SQLAlchemy's `column.contains(pattern)`: substring containment of the
pattern in the description. -/
def strContains (s pat : String) : Bool := decide (pat.toList <:+: s.toList)

/-- The in-memory part of a `Category`: its name and its keyword list as
loaded from the YAML file. -/
structure Category where
  name : String
  keywords : List String
  deriving DecidableEq, Repr

/-- `TransactionQuery.filter_description` applied to a `Category` argument,
debit branch.  The source first short-circuits: if the category has no
keywords it returns `self` unchanged (applying no filter); otherwise it keeps
(or, inverted, drops) the records whose description contains at least one
keyword. -/
def TransactionQuery.filter_descriptionCategoryDebit (rs : List DebitTransaction)
    (c : Category) (invert : Bool) : List DebitTransaction :=
  if c.keywords.length = 0 then rs
  else if invert then
    rs.filter (fun r => !(c.keywords.any (fun k => strContains r.description k)))
  else
    rs.filter (fun r => c.keywords.any (fun k => strContains r.description k))

/-- `TransactionQuery.filter_description` applied to a `Category` argument,
credit branch (same code path, credit record type). -/
def TransactionQuery.filter_descriptionCategoryCredit (rs : List CreditTransaction)
    (c : Category) (invert : Bool) : List CreditTransaction :=
  if c.keywords.length = 0 then rs
  else if invert then
    rs.filter (fun r => !(c.keywords.any (fun k => strContains r.description k)))
  else
    rs.filter (fun r => c.keywords.any (fun k => strContains r.description k))

/-- `TransactionQuery.count` (ungrouped): `self.query.count()`. -/
def TransactionQuery.countDebit (rs : List DebitTransaction) : ℕ := rs.length

/-- `TransactionQuery.count` (ungrouped), credit record type. -/
def TransactionQuery.countCredit (rs : List CreditTransaction) : ℕ := rs.length

/-- `TransactionQuery.average` (ungrouped), debit branch:
`total = self.sum(); count = self.count(); raise ValueError if count == 0;
return total / count`. -/
def TransactionQuery.averageDebit (rs : List DebitTransaction) : Except String ℚ :=
  let total := TransactionQuery.sumDebit rs
  let count := TransactionQuery.countDebit rs
  if count = 0 then .error "No transactions found for the specified criteria."
  else .ok (total / count)

/-- `TransactionQuery.average` (ungrouped), credit branch. -/
def TransactionQuery.averageCredit (rs : List CreditTransaction) : Except String ℚ :=
  let total := TransactionQuery.sumCredit rs
  let count := TransactionQuery.countCredit rs
  if count = 0 then .error "No transactions found for the specified criteria."
  else .ok (total / count)

/-- Insert an element into a list sorted by the boolean comparison `le`,
after every element it does not strictly precede (SQL `ORDER BY` keeps a
stable order for equal keys). -/
def orderedInsert (le : α → α → Bool) (a : α) : List α → List α
  | [] => [a]
  | b :: bs => if le a b && !(le b a) then a :: b :: bs else b :: orderedInsert le a bs

/-- Stable sort by the boolean comparison `le`. -/
def sortByKey (le : α → α → Bool) (l : List α) : List α :=
  l.foldl (fun acc a => orderedInsert le a acc) []

/-- The `amount` expression of `TransactionQuery._order_by`, debit branch:
`coalesce(deposit, 0) - coalesce(withdrawal, 0)`; ordering is by `abs(amount)`. -/
def orderByAmountDebit (rs : List DebitTransaction) (ascending : Bool) :
    List DebitTransaction :=
  sortByKey (fun a b =>
    if ascending then decide (|debitSignedAmount a| ≤ |debitSignedAmount b|)
    else decide (|debitSignedAmount b| ≤ |debitSignedAmount a|)) rs

/-- `TransactionQuery._order_by("amount")`, credit branch:
`coalesce(charge, 0) - coalesce(payment, 0)`, ordered by absolute value. -/
def orderByAmountCredit (rs : List CreditTransaction) (ascending : Bool) :
    List CreditTransaction :=
  sortByKey (fun a b =>
    if ascending then decide (|creditSignedAmount a| ≤ |creditSignedAmount b|)
    else decide (|creditSignedAmount b| ≤ |creditSignedAmount a|)) rs

/-- `TransactionQuery._order_by("description")`, debit record type. -/
def orderByDescriptionDebit (rs : List DebitTransaction) (ascending : Bool) :
    List DebitTransaction :=
  sortByKey (fun a b =>
    if ascending then decide (a.description ≤ b.description)
    else decide (b.description ≤ a.description)) rs

/-- `TransactionQuery._order_by("description")`, credit record type. -/
def orderByDescriptionCredit (rs : List CreditTransaction) (ascending : Bool) :
    List CreditTransaction :=
  sortByKey (fun a b =>
    if ascending then decide (a.description ≤ b.description)
    else decide (b.description ≤ a.description)) rs

/-- `TransactionQuery._order_by("date")`, debit record type. -/
def orderByDateDebit (rs : List DebitTransaction) (ascending : Bool) :
    List DebitTransaction :=
  sortByKey (fun a b =>
    if ascending then decide (a.date ≤ b.date) else decide (b.date ≤ a.date)) rs

/-- `TransactionQuery._order_by("date")`, credit record type. -/
def orderByDateCredit (rs : List CreditTransaction) (ascending : Bool) :
    List CreditTransaction :=
  sortByKey (fun a b =>
    if ascending then decide (a.date ≤ b.date) else decide (b.date ≤ a.date)) rs

/-- `TransactionQuery.transactions` (with `as_list=True`), debit record type:
raises `ValueError` when `sum([order_by_amount, order_by_description]) > 1`,
otherwise orders by the single requested criterion (date by default) and
returns the result set. -/
def TransactionQuery.transactionsDebit (rs : List DebitTransaction)
    (order_by_amount order_by_description ascending : Bool) :
    Except String (List DebitTransaction) :=
  if (cond order_by_amount 1 0) + (cond order_by_description 1 0) > 1 then
    .error "Only one order_by argument can be True."
  else if order_by_amount then .ok (orderByAmountDebit rs ascending)
  else if order_by_description then .ok (orderByDescriptionDebit rs ascending)
  else .ok (orderByDateDebit rs ascending)

/-- `TransactionQuery.transactions` (with `as_list=True`), credit record type. -/
def TransactionQuery.transactionsCredit (rs : List CreditTransaction)
    (order_by_amount order_by_description ascending : Bool) :
    Except String (List CreditTransaction) :=
  if (cond order_by_amount 1 0) + (cond order_by_description 1 0) > 1 then
    .error "Only one order_by argument can be True."
  else if order_by_amount then .ok (orderByAmountCredit rs ascending)
  else if order_by_description then .ok (orderByDescriptionCredit rs ascending)
  else .ok (orderByDateCredit rs ascending)

/-- Insert a debit record into a list sorted by date, after every record of
earlier-or-equal date (ties keep insertion order). -/
def insertByDateDebit (r : DebitTransaction) : List DebitTransaction → List DebitTransaction
  | [] => [r]
  | b :: bs => if r.date < b.date then r :: b :: bs else b :: insertByDateDebit r bs

/-- Insert a credit record into a list sorted by date, after every record of
earlier-or-equal date. -/
def insertByDateCredit (r : CreditTransaction) : List CreditTransaction → List CreditTransaction
  | [] => [r]
  | b :: bs => if r.date < b.date then r :: b :: bs else b :: insertByDateCredit r bs

/-- Modelled from the spec: `DebitAccount.get_transactions` is called by
`check_validity` and `get_balance` but its definition is not part of the
sources; the spec specifies `all(order="date", ascending=true)` returning the
full ordered sequence, ties broken by insertion order (a stable sort by
date). -/
def DebitAccount.get_transactions (store : List DebitTransaction) : List DebitTransaction :=
  store.foldl (fun acc r => insertByDateDebit r acc) []

/-- Modelled from the spec: `CreditAccount.get_transactions`, as for debit. -/
def CreditAccount.get_transactions (store : List CreditTransaction) : List CreditTransaction :=
  store.foldl (fun acc r => insertByDateCredit r acc) []

/-- Modelled from the spec: `DebitAccount.sum_transactions` (called by
`check_validity`, not defined in the sources) computes the "sum of all
transactions (signed, rounded)" — the signed sum of deposits minus
withdrawals, rounded to 2 decimal places, as the ungrouped `sum()`. -/
def DebitAccount.sum_transactions (store : List DebitTransaction) : ℚ :=
  round2 (debitDepositTotal store - debitWithdrawalTotal store)

/-- Modelled from the spec: `CreditAccount.sum_transactions` (called by
`check_validity`, not defined in the sources) computes the signed sum in the
credit account's own sign convention, in which a charge increases the balance
owed: charges minus payments, rounded to 2 decimal places. -/
def CreditAccount.sum_transactions (store : List CreditTransaction) : ℚ :=
  round2 (creditChargeTotal store - creditPaymentTotal store)

/-- Modelled from the spec: `DebitAccount.count_transactions` (called by
`check_validity`, not defined in the sources): the number of stored records. -/
def DebitAccount.count_transactions (store : List DebitTransaction) : ℕ := store.length

/-- `DebitAccount.get_balance`: the balance of `get_transactions()[-1]`, the
last record in date order; raises when there are no transactions. -/
def DebitAccount.get_balance (store : List DebitTransaction) : Except String ℚ :=
  match (DebitAccount.get_transactions store).getLast? with
  | none => .error "IndexError: list index out of range"
  | some r => .ok r.balance

/-- `CreditAccount.get_balance`. -/
def CreditAccount.get_balance (store : List CreditTransaction) : Except String ℚ :=
  match (CreditAccount.get_transactions store).getLast? with
  | none => .error "IndexError: list index out of range"
  | some r => .ok r.balance

/-- `DebitAccount.check_validity`: on zero transactions return `True`;
otherwise compare `round(sum_transactions(), 2)` against
`round(last_balance - first_balance, 2)`, where `first_balance` is the first
record's stored balance minus its deposit when the deposit is non-null, and
plus its withdrawal otherwise (a first record with both fields null makes the
Python `balance + None` raise a `TypeError`). -/
def DebitAccount.check_validity (store : List DebitTransaction) : Except String Bool :=
  if DebitAccount.count_transactions store = 0 then .ok true
  else
    let total_transactions := round2 (DebitAccount.sum_transactions store)
    match (DebitAccount.get_transactions store).head? with
    | none => .error "IndexError: list index out of range"
    | some first =>
      match
        (match first.deposit with
         | some d => .ok (first.balance - d)
         | none =>
           match first.withdrawal with
           | some w => .ok (first.balance + w)
           | none => .error "TypeError: unsupported operand type(s)" :
           Except String ℚ) with
      | .error e => .error e
      | .ok first_balance =>
        match DebitAccount.get_balance store with
        | .error e => .error e
        | .ok last_balance =>
          .ok (decide (total_transactions = round2 (last_balance - first_balance)))

/-- `CreditAccount.check_validity`: same comparison with charge/payment in
place of deposit/withdrawal, but with NO guard for an account with zero
transactions: `get_transactions()[0]` raises `IndexError` on an empty
account. -/
def CreditAccount.check_validity (store : List CreditTransaction) : Except String Bool :=
  let total_transactions := round2 (CreditAccount.sum_transactions store)
  match (CreditAccount.get_transactions store).head? with
  | none => .error "IndexError: list index out of range"
  | some first =>
    match
      (match first.charge with
       | some c => .ok (first.balance - c)
       | none =>
         match first.payment with
         | some p => .ok (first.balance + p)
         | none => .error "TypeError: unsupported operand type(s)" :
         Except String ℚ) with
    | .error e => .error e
    | .ok first_balance =>
      match CreditAccount.get_balance store with
      | .error e => .error e
      | .ok last_balance =>
        .ok (decide (total_transactions = round2 (last_balance - first_balance)))

/-- Pandas `Series.is_monotonic_increasing` on the date column: every
adjacent pair is non-decreasing. -/
def isMonotonicIncreasing : List ℕ → Bool
  | [] => true
  | [_] => true
  | a :: b :: rest => decide (a ≤ b) && isMonotonicIncreasing (b :: rest)

/-- The row-reordering step of `DebitAccount._load_csv_data`: if the dates
are not in increasing order, reverse the whole frame (`data.iloc[::-1]`);
no other reordering is performed. -/
def DebitAccount.load_csv_order (rows : List DebitTransaction) : List DebitTransaction :=
  if isMonotonicIncreasing (rows.map (fun r => r.date)) then rows else rows.reverse

/-- The row-reordering step of `CreditAccount._load_csv_data` (same logic). -/
def CreditAccount.load_csv_order (rows : List CreditTransaction) : List CreditTransaction :=
  if isMonotonicIncreasing (rows.map (fun r => r.date)) then rows else rows.reverse

/-- The `for sub_category in sub_categories` loop of `Category.add_keywords`:
raise `KeyError` when a subcategory is not a key of the loaded YAML mapping,
raise `ValueError` when it is the category's own name, and otherwise append
the subcategory's keywords that are not already the category's own. -/
def collectAddSubKeywords (available : List (String × List String)) (selfName : String)
    (selfKeywords : List String) (acc : List String) :
    List String → Except String (List String)
  | [] => .ok acc
  | sc :: rest =>
    match available.lookup sc with
    | none => .error ("KeyError: Category " ++ sc ++ " does not exist.")
    | some scKeywords =>
      if sc = selfName then
        .error ("ValueError: Cannot add " ++ selfName ++ " category to itself.")
      else
        collectAddSubKeywords available selfName selfKeywords
          (acc ++ scKeywords.filter (fun k => !(selfKeywords.contains k))) rest

/-- The corresponding loop of `Category.remove_keywords`: same checks, but
collecting the subcategory keywords that ARE currently the category's own. -/
def collectRemoveSubKeywords (available : List (String × List String)) (selfName : String)
    (selfKeywords : List String) (acc : List String) :
    List String → Except String (List String)
  | [] => .ok acc
  | sc :: rest =>
    match available.lookup sc with
    | none => .error ("KeyError: Category " ++ sc ++ " does not exist.")
    | some scKeywords =>
      if sc = selfName then
        .error ("ValueError: Cannot remove " ++ selfName ++ " category from itself.")
      else
        collectRemoveSubKeywords available selfName selfKeywords
          (acc ++ scKeywords.filter (fun k => selfKeywords.contains k)) rest

/-- `Category.add_keywords`: collect the new keywords (the explicit ones not
already present, then the subcategory ones), mutate `self.keywords`, and
rewrite the YAML mapping with the same keywords appended under `self.name`
(creating the entry when absent).  All mutation happens after the loops, so
an exception raised inside a loop leaves both untouched; the embedding
returns the mutated category and mapping only on success. -/
def Category.add_keywords (available : List (String × List String)) (self : Category)
    (keywords sub_categories : List String) :
    Except String (Category × List (String × List String)) :=
  let initial := keywords.filter (fun k => !(self.keywords.contains k))
  match collectAddSubKeywords available self.name self.keywords initial sub_categories with
  | .error e => .error e
  | .ok keywords_to_add =>
    let newSelf : Category := ⟨self.name, self.keywords ++ keywords_to_add⟩
    let newAvailable :=
      if (available.lookup self.name).isSome then
        available.map (fun p => if p.1 = self.name then (p.1, p.2 ++ keywords_to_add) else p)
      else available ++ [(self.name, keywords_to_add)]
    .ok (newSelf, newAvailable)

/-- `Category.remove_keywords`: collect the keywords to remove (the explicit
ones currently present, then the subcategory ones), remove each first
occurrence from `self.keywords`, and rewrite the YAML entry for `self.name`
filtered of them (`KeyError` when that entry is absent). -/
def Category.remove_keywords (available : List (String × List String)) (self : Category)
    (keywords sub_categories : List String) :
    Except String (Category × List (String × List String)) :=
  let initial := keywords.filter (fun k => self.keywords.contains k)
  match collectRemoveSubKeywords available self.name self.keywords initial sub_categories with
  | .error e => .error e
  | .ok keywords_to_remove =>
    let newSelf : Category :=
      ⟨self.name, keywords_to_remove.foldl (fun ks k => ks.erase k) self.keywords⟩
    match available.lookup self.name with
    | none => .error ("KeyError: " ++ self.name)
    | some own =>
      let newAvailable :=
        available.map (fun p =>
          if p.1 = self.name then
            (p.1, own.filter (fun k => !(keywords_to_remove.contains k)))
          else p)
      .ok (newSelf, newAvailable)

/-- The "first balance" C1 describes for a debit ledger: the first record's
stored balance minus its deposit when the deposit is non-null, plus its
withdrawal otherwise (the stored balance already reflects the first
transaction). -/
def reconstructedFirstBalanceDebit (f : DebitTransaction) : ℚ :=
  match f.deposit with
  | some d => f.balance - d
  | none => f.balance + f.withdrawal.getD 0

/-- The "first balance" C1 describes for a credit ledger: stored balance
minus the charge when non-null, plus the payment otherwise. -/
def reconstructedFirstBalanceCredit (f : CreditTransaction) : ℚ :=
  match f.charge with
  | some c => f.balance - c
  | none => f.balance + f.payment.getD 0

/-! ## Sanity checks: the spec's worked scenario (one deposit of 100 on day 1
with balance 100, one withdrawal of 30 on day 2 with balance 70), and a
tampered ledger on which `check_validity` must come out false. -/

example : TransactionQuery.sumDebit
    [⟨"a", 1, some 100, none, 100⟩, ⟨"b", 2, none, some 30, 70⟩] = 70 := by
  norm_num [TransactionQuery.sumDebit, debitDepositTotal, debitWithdrawalTotal,
    round2, roundHalfEven]

example : TransactionQuery.sumCredit [⟨"c", 1, some 10, none, 10⟩] = -10 := by
  norm_num [TransactionQuery.sumCredit, creditChargeTotal, creditPaymentTotal,
    round2, roundHalfEven]

example :
    DebitAccount.check_validity
      [⟨"a", 1, some 100, none, 100⟩, ⟨"b", 2, none, some 30, 70⟩] = .ok true := by
  norm_num [DebitAccount.check_validity, DebitAccount.count_transactions,
    DebitAccount.get_transactions, insertByDateDebit, DebitAccount.get_balance,
    DebitAccount.sum_transactions, debitDepositTotal, debitWithdrawalTotal,
    round2, roundHalfEven]

example :
    DebitAccount.check_validity
      [⟨"a", 1, some 100, none, 100⟩, ⟨"b", 2, none, some 30, 80⟩] = .ok false := by
  norm_num [DebitAccount.check_validity, DebitAccount.count_transactions,
    DebitAccount.get_transactions, insertByDateDebit, DebitAccount.get_balance,
    DebitAccount.sum_transactions, debitDepositTotal, debitWithdrawalTotal,
    round2, roundHalfEven]

/-! ## General lemmas -/

theorem roundHalfEven_neg (q : ℚ) : roundHalfEven (-q) = -roundHalfEven q := by
  unfold roundHalfEven
  simp only [Int.self_sub_floor]
  rcases eq_or_ne (Int.fract q) 0 with h0 | hne
  · have h0' : Int.fract (-q) = 0 := Int.fract_neg_eq_zero.mpr h0
    have hq : (⌊q⌋ : ℚ) = q := by
      have := Int.self_sub_fract q
      rw [h0, sub_zero] at this
      linarith
    have hnq : ⌊-q⌋ = -⌊q⌋ := by
      rw [Int.floor_neg]
      congr 1
      rw [← hq, Int.ceil_intCast, Int.floor_intCast]
    simp only [h0, h0', hnq]
    norm_num
  · have h1 : Int.fract (-q) = 1 - Int.fract q := Int.fract_neg hne
    have hfq : (⌊q⌋ : ℚ) = q - Int.fract q := by
      have := Int.self_sub_fract q; linarith
    have hfnq : (⌊-q⌋ : ℚ) = -q - Int.fract (-q) := by
      have := Int.self_sub_fract (-q); linarith
    have hfi : ⌊-q⌋ = -⌊q⌋ - 1 := by
      have : ((⌊-q⌋ : ℚ)) = ((-⌊q⌋ - 1 : ℤ) : ℚ) := by
        rw [hfnq, h1]
        push_cast
        rw [hfq]
        ring
      exact_mod_cast this
    have h0le : 0 ≤ Int.fract q := Int.fract_nonneg q
    have hlt1 : Int.fract q < 1 := Int.fract_lt_one q
    simp only [hfi, h1]
    split_ifs <;> first | linarith | omega

theorem round2_neg (q : ℚ) : round2 (-q) = -round2 q := by
  unfold round2
  rw [show -q * 100 = -(q * 100) by ring, roundHalfEven_neg]
  push_cast
  ring

theorem map_sum_sub (f g : α → ℚ) (l : List α) :
    (l.map (fun a => f a - g a)).sum = (l.map f).sum - (l.map g).sum := by
  induction l with
  | nil => simp
  | cons a t ih => simp only [List.map_cons, List.sum_cons, ih]; ring

/-! ## Claims -/

/-- C10: For every debit query, the ungrouped `sum()` and `sum2()` return the
same value (both compute `round(deposits - withdrawals, 2)`); for every
credit query whose charge and payment totals differ, `sum()` returns the
negation of `sum2()` (`sum` computes payments minus charges while `sum2`
computes charges minus payments). -/
theorem claim_C10_sum_sum2_relation :
    (∀ rs : List DebitTransaction,
      TransactionQuery.sumDebit rs = TransactionQuery.sum2Debit rs) ∧
    (∀ rs : List CreditTransaction,
      creditChargeTotal rs ≠ creditPaymentTotal rs →
      TransactionQuery.sumCredit rs = -TransactionQuery.sum2Credit rs) := by
  constructor
  · intro rs; rfl
  · intro rs _
    unfold TransactionQuery.sumCredit TransactionQuery.sum2Credit
    rw [show creditPaymentTotal rs - creditChargeTotal rs =
      -(creditChargeTotal rs - creditPaymentTotal rs) by ring, round2_neg]

/-- C10 witness: the relation applied to a concrete debit query and to a
concrete credit query with one charge of 10 and no payments. -/
theorem claim_C10_witness :
    TransactionQuery.sumDebit [⟨"a", 1, some 100, none, 100⟩] =
      TransactionQuery.sum2Debit [⟨"a", 1, some 100, none, 100⟩] ∧
    TransactionQuery.sumCredit [⟨"c", 1, some 10, none, 10⟩] =
      -TransactionQuery.sum2Credit [⟨"c", 1, some 10, none, 10⟩] := by
  refine ⟨claim_C10_sum_sum2_relation.1 _, claim_C10_sum_sum2_relation.2 _ ?_⟩
  norm_num [creditChargeTotal, creditPaymentTotal]

/-- C2 counterexample: on a credit query holding a single charge of 10 (and
no payments), `sum()` returns −10, while the claimed value, primary (charge)
minus secondary (payment) amounts rounded, is 10. -/
theorem claim_C2_counterexample :
    TransactionQuery.sumCredit [⟨"c", 1, some 10, none, 10⟩] = -10 ∧
    claimedSumCredit [⟨"c", 1, some 10, none, 10⟩] = 10 := by
  constructor <;>
    norm_num [TransactionQuery.sumCredit, claimedSumCredit, creditChargeTotal,
      creditPaymentTotal, creditSignedAmount, round2, roundHalfEven]

/-- C2 (amended): for every ungrouped query, `sum()` returns the rounded
signed sum over the matching records with null amount fields treated as 0 —
deposits minus withdrawals for a debit query, but payments minus charges
(the NEGATION of primary-minus-secondary) for a credit query. -/
theorem claim_C2_sum_value :
    (∀ rs : List DebitTransaction,
      TransactionQuery.sumDebit rs = round2 ((rs.map debitSignedAmount).sum)) ∧
    (∀ rs : List CreditTransaction,
      TransactionQuery.sumCredit rs = round2 (-((rs.map creditSignedAmount).sum))) := by
  constructor
  · intro rs
    unfold TransactionQuery.sumDebit debitSignedAmount
    rw [map_sum_sub]
    rfl
  · intro rs
    unfold TransactionQuery.sumCredit creditSignedAmount
    rw [map_sum_sub]
    congr 1
    unfold creditPaymentTotal creditChargeTotal
    ring

/-- C3: ingestion is idempotent.  Inserting a record when one with its
content-hash id is already stored is a no-op, re-inserting the same record is
a no-op, and after inserting a record twice into a store that had no record
with its id, exactly one stored record carries that id. -/
theorem claim_C3_idempotent_ingestion :
    ∀ (store : List DebitTransaction) (r : DebitTransaction),
      (store.any (fun t => t.hashId == r.hashId) = true →
        DebitAccount.add_transaction store r = store) ∧
      DebitAccount.add_transaction (DebitAccount.add_transaction store r) r =
        DebitAccount.add_transaction store r ∧
      (store.countP (fun t => t.hashId == r.hashId) = 0 →
        (DebitAccount.add_transaction (DebitAccount.add_transaction store r) r).countP
          (fun t => t.hashId == r.hashId) = 1) := by
  intro store r
  by_cases h : store.any (fun t => t.hashId == r.hashId)
  · have h1 : DebitAccount.add_transaction store r = store := by
      simp [DebitAccount.add_transaction, h]
    refine ⟨fun _ => h1, by rw [h1, h1], fun h0 => ?_⟩
    exfalso
    obtain ⟨t, ht, hp⟩ := List.any_eq_true.mp h
    have := List.countP_eq_zero.mp h0 t ht
    simp_all
  · have h1 : DebitAccount.add_transaction store r = store ++ [r] := by
      simp only [DebitAccount.add_transaction, h, Bool.false_eq_true, if_false]
    have h2 : (store ++ [r]).any (fun t => t.hashId == r.hashId) = true := by
      simp [List.any_append]
    have h3 : DebitAccount.add_transaction (store ++ [r]) r = store ++ [r] := by
      simp [DebitAccount.add_transaction, h2]
    refine ⟨fun hc => absurd hc (by simp [h]), by rw [h1, h3], fun h0 => ?_⟩
    rw [h1, h3, List.countP_append, h0]
    simp

/-- C3 witness: inserting one concrete record twice into the empty store. -/
theorem claim_C3_witness :
    DebitAccount.add_transaction
        (DebitAccount.add_transaction [] ⟨"a", 1, some 100, none, 100⟩)
        ⟨"a", 1, some 100, none, 100⟩ =
      DebitAccount.add_transaction [] ⟨"a", 1, some 100, none, 100⟩ ∧
    (DebitAccount.add_transaction
        (DebitAccount.add_transaction [] ⟨"a", 1, some 100, none, 100⟩)
        ⟨"a", 1, some 100, none, 100⟩).countP
      (fun t => t.hashId == DebitTransaction.hashId ⟨"a", 1, some 100, none, 100⟩) = 1 :=
  ⟨(claim_C3_idempotent_ingestion [] _).2.1,
    (claim_C3_idempotent_ingestion [] _).2.2 rfl⟩

/-- C4 (code bug): `filter_description` given a category with an empty
keyword set returns the query unchanged for BOTH `invert=false` and
`invert=true` — the `invert=false` case matches every record, not none,
although the source's own comment says "return an empty list". -/
theorem claim_C4_empty_category_filter :
    TransactionQuery.filter_descriptionCategoryDebit
        [⟨"Coffee", 1, some 5, none, 5⟩] ⟨"empty", []⟩ false =
      [⟨"Coffee", 1, some 5, none, 5⟩] ∧
    TransactionQuery.filter_descriptionCategoryDebit
        [⟨"Coffee", 1, some 5, none, 5⟩] ⟨"empty", []⟩ true =
      [⟨"Coffee", 1, some 5, none, 5⟩] :=
  ⟨rfl, rfl⟩

/-- C5: for every ungrouped query, `average()` is `sum()/count()` when at
least one record matches, and raises a "no data" `ValueError` instead of
dividing by zero when the count is 0 — for both record types. -/
theorem claim_C5_average :
    (∀ rs : List DebitTransaction,
      (rs.length ≠ 0 →
        TransactionQuery.averageDebit rs =
          .ok (TransactionQuery.sumDebit rs / (TransactionQuery.countDebit rs : ℚ))) ∧
      (rs.length = 0 →
        TransactionQuery.averageDebit rs =
          .error "No transactions found for the specified criteria.")) ∧
    (∀ rs : List CreditTransaction,
      (rs.length ≠ 0 →
        TransactionQuery.averageCredit rs =
          .ok (TransactionQuery.sumCredit rs / (TransactionQuery.countCredit rs : ℚ))) ∧
      (rs.length = 0 →
        TransactionQuery.averageCredit rs =
          .error "No transactions found for the specified criteria.")) := by
  constructor <;> intro rs <;> constructor <;> intro h <;>
    simp [TransactionQuery.averageDebit, TransactionQuery.averageCredit,
      TransactionQuery.countDebit, TransactionQuery.countCredit, h]

/-- C5 witness: `average()` on one concrete matching record, and the "no
data" error on an empty match set. -/
theorem claim_C5_witness :
    TransactionQuery.averageDebit [⟨"a", 1, some 100, none, 100⟩] =
      .ok (TransactionQuery.sumDebit [⟨"a", 1, some 100, none, 100⟩] /
        (TransactionQuery.countDebit [⟨"a", 1, some 100, none, 100⟩] : ℚ)) ∧
    TransactionQuery.averageCredit [] =
      .error "No transactions found for the specified criteria." :=
  ⟨(claim_C5_average.1 _).1 (by simp), (claim_C5_average.2 _).2 rfl⟩

theorem isMonotonicIncreasing_iff :
    ∀ l : List ℕ, isMonotonicIncreasing l = true ↔ List.Chain' (· ≤ ·) l
  | [] => by simp [isMonotonicIncreasing]
  | [a] => by simp [isMonotonicIncreasing]
  | a :: b :: t => by
    simp only [isMonotonicIncreasing, Bool.and_eq_true, decide_eq_true_eq,
      List.chain'_cons, isMonotonicIncreasing_iff (b :: t)]

theorem chain'_gt_reverse (l : List ℕ) (h : List.Chain' (· > ·) l) :
    List.Chain' (· ≤ ·) l.reverse := by
  rw [List.chain'_reverse]
  exact h.imp fun _ _ hab => le_of_lt hab

/-- C7: batch ingestion checks whether the rows are already ascending by
date; if not it reverses the whole sequence (never a full sort), so an input
that is strictly descending by date ends up in ascending date order — for
both the debit and the credit loader. -/
theorem claim_C7_ingest_order :
    (∀ rows : List DebitTransaction,
      (isMonotonicIncreasing (rows.map (fun r => r.date)) = true →
        DebitAccount.load_csv_order rows = rows) ∧
      (isMonotonicIncreasing (rows.map (fun r => r.date)) = false →
        DebitAccount.load_csv_order rows = rows.reverse) ∧
      (List.Chain' (· > ·) (rows.map (fun r => r.date)) →
        isMonotonicIncreasing
          ((DebitAccount.load_csv_order rows).map (fun r => r.date)) = true)) ∧
    (∀ rows : List CreditTransaction,
      (isMonotonicIncreasing (rows.map (fun r => r.date)) = true →
        CreditAccount.load_csv_order rows = rows) ∧
      (isMonotonicIncreasing (rows.map (fun r => r.date)) = false →
        CreditAccount.load_csv_order rows = rows.reverse) ∧
      (List.Chain' (· > ·) (rows.map (fun r => r.date)) →
        isMonotonicIncreasing
          ((CreditAccount.load_csv_order rows).map (fun r => r.date)) = true)) := by
  constructor <;>
  · intro rows
    refine ⟨fun h => by simp [DebitAccount.load_csv_order,
        CreditAccount.load_csv_order, h],
      fun h => by simp [DebitAccount.load_csv_order,
        CreditAccount.load_csv_order, h],
      fun h => ?_⟩
    by_cases hm : isMonotonicIncreasing (rows.map (fun r => r.date)) = true
    · simp [DebitAccount.load_csv_order, CreditAccount.load_csv_order, hm]
    · have hgoal := (isMonotonicIncreasing_iff _).mpr
        (chain'_gt_reverse (rows.map (fun r => r.date)) h)
      simpa [DebitAccount.load_csv_order, CreditAccount.load_csv_order, hm,
        List.map_reverse] using hgoal

/-- C7 witness: a concrete two-row input strictly descending by date is
reversed, and the result is ascending by date. -/
theorem claim_C7_witness :
    DebitAccount.load_csv_order
        [⟨"b", 2, some 1, none, 1⟩, ⟨"a", 1, some 2, none, 2⟩] =
      [⟨"b", 2, some 1, none, 1⟩, ⟨"a", 1, some 2, none, 2⟩].reverse ∧
    isMonotonicIncreasing
      ((DebitAccount.load_csv_order
        [⟨"b", 2, some 1, none, 1⟩, ⟨"a", 1, some 2, none, 2⟩]).map
          (fun r => r.date)) = true :=
  ⟨(claim_C7_ingest_order.1 _).2.1 rfl,
    (claim_C7_ingest_order.1 _).2.2 (by norm_num [List.chain'_cons])⟩

/-- C8: `transactions()` permits at most one ordering criterion: requesting
both `order_by_amount` and `order_by_description` fails with a `ValueError`
before the query executes, and with at most one criterion the ordered result
set is returned without error — for both record types. -/
theorem claim_C8_single_order_criterion :
    (∀ (rs : List DebitTransaction) (asc : Bool),
      (∃ e, TransactionQuery.transactionsDebit rs true true asc = .error e) ∧
      (∀ oba obd : Bool, ¬(oba = true ∧ obd = true) →
        ∃ l, TransactionQuery.transactionsDebit rs oba obd asc = .ok l)) ∧
    (∀ (rs : List CreditTransaction) (asc : Bool),
      (∃ e, TransactionQuery.transactionsCredit rs true true asc = .error e) ∧
      (∀ oba obd : Bool, ¬(oba = true ∧ obd = true) →
        ∃ l, TransactionQuery.transactionsCredit rs oba obd asc = .ok l)) := by
  constructor <;>
  · intro rs asc
    refine ⟨⟨_, rfl⟩, fun oba obd h => ?_⟩
    cases oba <;> cases obd
    · exact ⟨_, rfl⟩
    · exact ⟨_, rfl⟩
    · exact ⟨_, rfl⟩
    · exact absurd ⟨rfl, rfl⟩ h

/-- C8 witness: both criteria requested on a concrete query errors; a single
criterion succeeds. -/
theorem claim_C8_witness :
    (∃ e, TransactionQuery.transactionsDebit
      [⟨"a", 1, some 100, none, 100⟩] true true true = .error e) ∧
    (∃ l, TransactionQuery.transactionsDebit
      [⟨"a", 1, some 100, none, 100⟩] true false true = .ok l) :=
  ⟨(claim_C8_single_order_criterion.1 _ true).1,
    (claim_C8_single_order_criterion.1 _ true).2 true false (by simp)⟩

theorem collectAddSubKeywords_self_error (available : List (String × List String))
    (selfName : String) (selfKeywords : List String) :
    ∀ (scs : List String) (acc : List String), selfName ∈ scs →
      ∃ e, collectAddSubKeywords available selfName selfKeywords acc scs = .error e := by
  intro scs
  induction scs with
  | nil => intro acc h; simp at h
  | cons sc rest ih =>
    intro acc h
    cases hl : available.lookup sc with
    | none =>
      refine ⟨"KeyError: Category " ++ sc ++ " does not exist.", ?_⟩
      simp only [collectAddSubKeywords, hl]
    | some kws =>
      by_cases hsc : sc = selfName
      · subst hsc
        refine ⟨"ValueError: Cannot add " ++ sc ++ " category to itself.", ?_⟩
        simp [collectAddSubKeywords, hl]
      · have hmem : selfName ∈ rest := by
          rcases List.mem_cons.mp h with h1 | h1
          · exact absurd h1.symm hsc
          · exact h1
        obtain ⟨e, he⟩ := ih (acc ++ kws.filter (fun k => !(selfKeywords.contains k))) hmem
        refine ⟨e, ?_⟩
        simp only [collectAddSubKeywords, hl, if_neg hsc]
        exact he

theorem collectRemoveSubKeywords_self_error (available : List (String × List String))
    (selfName : String) (selfKeywords : List String) :
    ∀ (scs : List String) (acc : List String), selfName ∈ scs →
      ∃ e, collectRemoveSubKeywords available selfName selfKeywords acc scs = .error e := by
  intro scs
  induction scs with
  | nil => intro acc h; simp at h
  | cons sc rest ih =>
    intro acc h
    cases hl : available.lookup sc with
    | none =>
      refine ⟨"KeyError: Category " ++ sc ++ " does not exist.", ?_⟩
      simp only [collectRemoveSubKeywords, hl]
    | some kws =>
      by_cases hsc : sc = selfName
      · subst hsc
        refine ⟨"ValueError: Cannot remove " ++ sc ++ " category from itself.", ?_⟩
        simp [collectRemoveSubKeywords, hl]
      · have hmem : selfName ∈ rest := by
          rcases List.mem_cons.mp h with h1 | h1
          · exact absurd h1.symm hsc
          · exact h1
        obtain ⟨e, he⟩ := ih (acc ++ kws.filter (fun k => selfKeywords.contains k)) hmem
        refine ⟨e, ?_⟩
        simp only [collectRemoveSubKeywords, hl, if_neg hsc]
        exact he

/-- C9: a category can never become its own subcategory: whenever the
`sub_categories` argument contains the category's own name, both
`add_keywords` and `remove_keywords` raise (a `ValueError` when the name is
reached, or an earlier `KeyError`) and return no mutated state, leaving the
category's keyword set unmodified. -/
theorem claim_C9_no_self_subcategory :
    ∀ (available : List (String × List String)) (self : Category)
      (keywords sub_categories : List String),
      self.name ∈ sub_categories →
      (∃ e, Category.add_keywords available self keywords sub_categories = .error e) ∧
      (∃ e, Category.remove_keywords available self keywords sub_categories = .error e) := by
  intro available self keywords sub_categories h
  constructor
  · obtain ⟨e, he⟩ := collectAddSubKeywords_self_error available self.name self.keywords
      sub_categories (keywords.filter (fun k => !(self.keywords.contains k))) h
    refine ⟨e, ?_⟩
    simp only [Category.add_keywords, he]
  · obtain ⟨e, he⟩ := collectRemoveSubKeywords_self_error available self.name self.keywords
      sub_categories (keywords.filter (fun k => self.keywords.contains k)) h
    refine ⟨e, ?_⟩
    simp only [Category.remove_keywords, he]

/-- C9 witness: the category "food" given itself as a subcategory. -/
theorem claim_C9_witness :
    (∃ e, Category.add_keywords [("food", ["pizza"])] ⟨"food", ["pizza"]⟩
      [] ["food"] = .error e) ∧
    (∃ e, Category.remove_keywords [("food", ["pizza"])] ⟨"food", ["pizza"]⟩
      [] ["food"] = .error e) :=
  claim_C9_no_self_subcategory [("food", ["pizza"])] ⟨"food", ["pizza"]⟩ [] ["food"]
    (by simp)

/-- C1: for every non-empty ledger, `check_validity()` returns true iff the
rounded signed sum of all transactions equals `round(last balance - first
balance, 2)`, the first balance being reconstructed from the first record by
subtracting its primary amount (deposit/charge) from its stored balance when
non-null and adding its secondary amount (withdrawal/payment) otherwise —
for both account kinds. -/
theorem claim_C1_check_validity_iff :
    (∀ (store : List DebitTransaction) (f l : DebitTransaction),
      store ≠ [] →
      (DebitAccount.get_transactions store).head? = some f →
      (DebitAccount.get_transactions store).getLast? = some l →
      (f.deposit = none → f.withdrawal ≠ none) →
      (DebitAccount.check_validity store = .ok true ↔
        round2 (DebitAccount.sum_transactions store) =
          round2 (l.balance - reconstructedFirstBalanceDebit f))) ∧
    (∀ (store : List CreditTransaction) (f l : CreditTransaction),
      store ≠ [] →
      (CreditAccount.get_transactions store).head? = some f →
      (CreditAccount.get_transactions store).getLast? = some l →
      (f.charge = none → f.payment ≠ none) →
      (CreditAccount.check_validity store = .ok true ↔
        round2 (CreditAccount.sum_transactions store) =
          round2 (l.balance - reconstructedFirstBalanceCredit f))) := by
  constructor
  · intro store f l hne hf hl hw
    have hcount : ¬ (DebitAccount.count_transactions store = 0) := by
      simpa [DebitAccount.count_transactions, List.length_eq_zero] using hne
    cases hd : f.deposit with
    | some d =>
      simp [DebitAccount.check_validity, hcount, hf, hd, DebitAccount.get_balance, hl,
        reconstructedFirstBalanceDebit, decide_eq_true_eq]
    | none =>
      cases hwd : f.withdrawal with
      | none => exact absurd hwd (hw hd)
      | some w =>
        simp [DebitAccount.check_validity, hcount, hf, hd, hwd, DebitAccount.get_balance,
          hl, reconstructedFirstBalanceDebit, decide_eq_true_eq]
  · intro store f l hne hf hl hw
    cases hd : f.charge with
    | some c =>
      simp [CreditAccount.check_validity, hf, hd, CreditAccount.get_balance, hl,
        reconstructedFirstBalanceCredit, decide_eq_true_eq]
    | none =>
      cases hwd : f.payment with
      | none => exact absurd hwd (hw hd)
      | some p =>
        simp [CreditAccount.check_validity, hf, hd, hwd, CreditAccount.get_balance, hl,
          reconstructedFirstBalanceCredit, decide_eq_true_eq]

/-- C1 witness: the equivalence applied to a concrete two-record debit ledger
and a concrete two-record credit ledger. -/
theorem claim_C1_witness :
    (DebitAccount.check_validity
        [⟨"a", 1, some 100, none, 100⟩, ⟨"b", 2, none, some 30, 70⟩] = .ok true ↔
      round2 (DebitAccount.sum_transactions
          [⟨"a", 1, some 100, none, 100⟩, ⟨"b", 2, none, some 30, 70⟩]) =
        round2 ((70 : ℚ) -
          reconstructedFirstBalanceDebit ⟨"a", 1, some 100, none, 100⟩)) ∧
    (CreditAccount.check_validity
        [⟨"c1", 1, some 50, none, 50⟩, ⟨"c2", 2, none, some 20, 30⟩] = .ok true ↔
      round2 (CreditAccount.sum_transactions
          [⟨"c1", 1, some 50, none, 50⟩, ⟨"c2", 2, none, some 20, 30⟩]) =
        round2 ((30 : ℚ) -
          reconstructedFirstBalanceCredit ⟨"c1", 1, some 50, none, 50⟩)) := by
  refine ⟨claim_C1_check_validity_iff.1
      [⟨"a", 1, some 100, none, 100⟩, ⟨"b", 2, none, some 30, 70⟩]
      ⟨"a", 1, some 100, none, 100⟩ ⟨"b", 2, none, some 30, 70⟩ ?_ ?_ ?_ ?_,
    claim_C1_check_validity_iff.2
      [⟨"c1", 1, some 50, none, 50⟩, ⟨"c2", 2, none, some 20, 30⟩]
      ⟨"c1", 1, some 50, none, 50⟩ ⟨"c2", 2, none, some 20, 30⟩ ?_ ?_ ?_ ?_⟩
  · simp
  · simp [DebitAccount.get_transactions, insertByDateDebit]
  · simp [DebitAccount.get_transactions, insertByDateDebit]
  · simp
  · simp
  · simp [CreditAccount.get_transactions, insertByDateCredit]
  · simp [CreditAccount.get_transactions, insertByDateCredit]
  · simp

/-- C6 (code bug): on an account with zero transactions `check_validity()`
returns true for a DEBIT account, but a CREDIT account has no empty guard and
`get_transactions()[0]` raises `IndexError` instead of returning true. -/
theorem claim_C6_empty_account_validity :
    DebitAccount.check_validity [] = .ok true ∧
    CreditAccount.check_validity [] = .error "IndexError: list index out of range" :=
  ⟨rfl, rfl⟩

end Midastouch
